import Mathlib

/-!
Shallow embedding of the mitmproxy-viewer terminal application
(src/flows.py, src/app.py, src/pages/flow_list.py, src/pages/flow_detail.py),
with theorems checking the natural-language specification against it.

Python strings are modelled as Lean `String`; per-character lowering models
`str.lower()` (exact on ASCII, which is all the command language uses).
Python byte strings are modelled as `List Nat` (one `Nat` per byte).
Python `None`-able values are modelled with `Option`.
-/

namespace MitmViewer

/-- Characters Python's `str.strip()` / `str.split(None)` treat as whitespace
(the ASCII portion of Python's definition). -/
def pyIsSpace (c : Char) : Bool :=
  c == ' ' || c == '\t' || c == '\n' || c == '\r' || c == '\x0b' || c == '\x0c'

/-- Python `str.lstrip()`. -/
def pyLstrip (s : String) : String := ⟨s.data.dropWhile pyIsSpace⟩

/-- Python `str.rstrip()`. -/
def pyRstrip (s : String) : String := ⟨(s.data.reverse.dropWhile pyIsSpace).reverse⟩

/-- Python `str.strip()`. -/
def pyStrip (s : String) : String := pyRstrip (pyLstrip s)

/-- Python `str.lower()` (per-character; exact on ASCII). -/
def pyLower (s : String) : String := ⟨s.data.map Char.toLower⟩

/-- Python `str.split(None, 1)`: drop leading whitespace, cut the first
whitespace-free token, drop the whitespace after it, and return the token
plus (when non-empty) the untouched remainder. -/
def pySplitOnce (s : String) : List String :=
  let cs := s.data.dropWhile pyIsSpace
  if cs.isEmpty then []
  else
    let tok := cs.takeWhile (fun c => !(pyIsSpace c))
    let rest := (cs.dropWhile (fun c => !(pyIsSpace c))).dropWhile pyIsSpace
    if rest.isEmpty then [⟨tok⟩] else [⟨tok⟩, ⟨rest⟩]

/-- Does `needle` start `haystack`? (helper for the substring test). -/
def leadsWith : List Char → List Char → Bool
  | [], _ => true
  | _ :: _, [] => false
  | a :: as, b :: bs => a == b && leadsWith as bs

/-- Python's `needle in haystack` substring test on strings. -/
def occursIn (needle : List Char) : List Char → Bool
  | [] => needle.isEmpty
  | b :: bs => leadsWith needle (b :: bs) || occursIn needle bs

/-- Python truthiness of an optional string (`None` and `""` are falsy). -/
def pyTruthyStr : Option String → Bool
  | none => false
  | some s => !(s == "")

/-- Python truthiness of an optional byte string (`None` and `b""` are falsy). -/
def pyTruthyBytes : Option (List Nat) → Bool
  | none => false
  | some b => !b.isEmpty

/-! ## Data model (mitmproxy `HTTPFlow` at this program's consumption boundary)

`getText` holds the result of the collaborator call `get_text(strict=False)`
(decoded body text or `None`); `rawContent` holds `raw_content`. -/

structure RequestRecord where
  method : String
  host : String
  path : String
  scheme : String
  httpVersion : String
  headers : List (String × String)
  getText : Option String
  rawContent : Option (List Nat)
  deriving DecidableEq

structure ResponseRecord where
  statusCode : Nat
  reason : String
  httpVersion : String
  headers : List (String × String)
  getText : Option String
  rawContent : Option (List Nat)
  deriving DecidableEq

structure Flow where
  request : Option RequestRecord
  response : Option ResponseRecord
  deriving DecidableEq

/-- mitmproxy `Headers.get(name)`: case-insensitive lookup of the first
header with the given name (collaborator behavior at the boundary). -/
def headersGet (headers : List (String × String)) (name : String) : Option String :=
  (headers.find? (fun p => pyLower p.1 == pyLower name)).map (fun p => p.2)

/-! ## src/flows.py -/

/-- `filter_flows_by_content_type` from src/flows.py. The Python loop that
appends each flow passing the header test, in order, is `List.filter`. -/
def filter_flows_by_content_type (flows : List Flow) (content_type : String) :
    List Flow :=
  if content_type == "" then flows
  else
    let needle := pyLower content_type
    flows.filter (fun flow =>
      match flow.request with
      | none => false
      | some request =>
        match headersGet request.headers "content-type" with
        | none => false
        | some header_value =>
            !(header_value == "") && occursIn needle.data (pyLower header_value).data)

/-! ## Byte decoding (Python `bytes.decode("utf-8")`, used by `_get_body_text`)

A model of CPython's UTF-8 decoder: `utf8Step` decodes one scalar value or
reports an invalid maximal subpart (consuming at least the lead byte). The
strict decoder fails on the first invalid subpart (`UnicodeDecodeError`);
the `errors="replace"` decoder substitutes U+FFFD per invalid subpart. -/

/-- Is `b` a UTF-8 continuation byte (`0x80..0xBF`)? -/
def utf8IsCont (b : Nat) : Bool := 0x80 ≤ b && b < 0xC0

/-- Decode one UTF-8 sequence whose lead byte is `b`, the following bytes
being `rest`. Returns the scalar value (or `none` on an invalid subpart) and
the bytes remaining after the consumed subpart. -/
def utf8Step (b : Nat) (rest : List Nat) : Option Nat × List Nat :=
  if b < 0x80 then (some b, rest)
  else if b < 0xC2 then (none, rest)
  else if b < 0xE0 then
    match rest with
    | b1 :: r1 =>
      if utf8IsCont b1 then (some ((b - 0xC0) * 0x40 + (b1 - 0x80)), r1)
      else (none, rest)
    | [] => (none, [])
  else if b < 0xF0 then
    match rest with
    | b1 :: r1 =>
      let firstOk :=
        if b == 0xE0 then 0xA0 ≤ b1 && b1 < 0xC0
        else if b == 0xED then 0x80 ≤ b1 && b1 < 0xA0
        else utf8IsCont b1
      if firstOk then
        match r1 with
        | b2 :: r2 =>
          if utf8IsCont b2 then
            (some ((b - 0xE0) * 0x1000 + (b1 - 0x80) * 0x40 + (b2 - 0x80)), r2)
          else (none, r1)
        | [] => (none, [])
      else (none, rest)
    | [] => (none, [])
  else if b < 0xF5 then
    match rest with
    | b1 :: r1 =>
      let firstOk :=
        if b == 0xF0 then 0x90 ≤ b1 && b1 < 0xC0
        else if b == 0xF4 then 0x80 ≤ b1 && b1 < 0x90
        else utf8IsCont b1
      if firstOk then
        match r1 with
        | b2 :: r2 =>
          if utf8IsCont b2 then
            match r2 with
            | b3 :: r3 =>
              if utf8IsCont b3 then
                (some ((b - 0xF0) * 0x40000 + (b1 - 0x80) * 0x1000 +
                       (b2 - 0x80) * 0x40 + (b3 - 0x80)), r3)
              else (none, r2)
            | [] => (none, [])
          else (none, r1)
        | [] => (none, [])
      else (none, rest)
    | [] => (none, [])
  else (none, rest)

/-- Strict UTF-8 decode with fuel (each step consumes at least the lead byte,
so fuel equal to the byte count suffices). `none` models `UnicodeDecodeError`. -/
def utf8DecodeStrictAux : Nat → List Nat → Option (List Char)
  | _, [] => some []
  | 0, _ :: _ => none
  | fuel + 1, b :: rest =>
    match utf8Step b rest with
    | (some cp, r) => (utf8DecodeStrictAux fuel r).map (fun cs => Char.ofNat cp :: cs)
    | (none, _) => none

/-- Python `bytes.decode("utf-8")`: `none` models `UnicodeDecodeError`. -/
def decodeUtf8Strict (bs : List Nat) : Option String :=
  (utf8DecodeStrictAux bs.length bs).map (fun cs => ⟨cs⟩)

/-- Replacing UTF-8 decode with fuel: one U+FFFD per invalid maximal subpart. -/
def utf8DecodeReplaceAux : Nat → List Nat → List Char
  | _, [] => []
  | 0, _ :: _ => []
  | fuel + 1, b :: rest =>
    match utf8Step b rest with
    | (some cp, r) => Char.ofNat cp :: utf8DecodeReplaceAux fuel r
    | (none, r) => Char.ofNat 0xFFFD :: utf8DecodeReplaceAux fuel r

/-- Python `bytes.decode("utf-8", errors="replace")`. -/
def decodeUtf8Replace (bs : List Nat) : String := ⟨utf8DecodeReplaceAux bs.length bs⟩

/-- `_get_body_text` (identical static method of both screens): the decoded
text when truthy, else the raw bytes decoded permissively, else `""`. -/
def get_body_text (textValue : Option String) (rawContent : Option (List Nat)) :
    String :=
  if pyTruthyStr textValue then textValue.getD ""
  else if pyTruthyBytes rawContent then
    let raw := rawContent.getD []
    match decodeUtf8Strict raw with
    | some s => s
    | none => decodeUtf8Replace raw
  else ""

/-! ## Table viewport model (src/pages/flow_list.py)

The Textual `DataTable` state this screen manipulates: cursor coordinate and
row count. Effects of an action are returned alongside the state: the `Bool`
is whether `app.bell()` was called during the handler. -/

structure TableState where
  cursorRow : Nat
  cursorColumn : Nat
  rowCount : Nat
  deriving DecidableEq

/-- `FlowListScreen._move_cursor(offset)`: no-op on an empty table, else set
the cursor row to `max(0, min(cursorRow + offset, rowCount - 1))`. The
handler contains no `bell()` call, so the bell component is always `false`. -/
def move_cursor (s : TableState) (offset : Int) : TableState × Bool :=
  if s.rowCount == 0 then (s, false)
  else
    let row : Int := (s.cursorRow : Int) + offset
    let row : Int := max 0 (min row ((s.rowCount : Int) - 1))
    ({ s with cursorRow := row.toNat }, false)

/-- `FlowListScreen._estimate_visible_rows`: `max(1, height - 4)` usable rows
for a terminal of the given height. -/
def estimate_visible_rows (height : Nat) : Nat := max 1 (height - 4)

/-- `FlowListScreen._page_move(fraction)`: no-op on an empty table, else move
the cursor by `max(1, int(visible_rows * |fraction|))` rows in the direction
of `fraction`'s sign. The Python float fraction is modelled as a rational,
which is exact for the binary fractions (±0.5) the key bindings use; `int()`
truncation of the non-negative product is `Rat.floor`. -/
def page_move (s : TableState) (height : Nat) (fraction : Rat) : TableState × Bool :=
  if s.rowCount == 0 then (s, false)
  else
    let visible_rows := min s.rowCount (estimate_visible_rows height)
    let rows := max 1 (Rat.floor ((visible_rows : Rat) * |fraction|)).toNat
    let direction : Int := if fraction > 0 then 1 else -1
    move_cursor s ((rows : Int) * direction)

/-- The column headers installed by `on_mount` / `_populate_table`. -/
def flowTableColumns : List String := ["#", "Method", "Host", "Path", "Status"]

/-- `FlowListScreen._populate_table`: remember the cursor coordinate (0,0 when
the table was empty), clear the table (Textual's `clear` resets the cursor to
(0,0) and keeps the columns), add one row per flow, and when rows exist
restore the cursor clamped to the new row and column ranges. -/
def populate_table (t : TableState) (flows : List Flow) : TableState :=
  let previous_row := if t.rowCount ≠ 0 then t.cursorRow else 0
  let previous_column := if t.rowCount ≠ 0 then t.cursorColumn else 0
  let cleared : TableState := ⟨0, 0, flows.length⟩
  if flows.length ≠ 0 then
    let column_limit :=
      if flowTableColumns.length ≠ 0 then flowTableColumns.length - 1 else 0
    { cleared with
        cursorRow := min previous_row (flows.length - 1),
        cursorColumn := min previous_column (max 0 column_limit) }
  else cleared

/-! ## Screen and application state -/

/-- State of `FlowListScreen`: its flow list, its copy of the filter, its
status message (`_set_status_message` maps `""` to `None`), and its table. -/
structure ListState where
  flows : List Flow
  contentTypeFilter : Option String
  statusMessage : Option String
  table : TableState
  deriving DecidableEq

/-- State of `FlowViewerApp` plus its (always mounted) `FlowListScreen`. -/
structure AppState where
  allFlows : List Flow
  filteredFlows : List Flow
  contentTypeFilter : Option String
  list : ListState
  deriving DecidableEq

/-- State of `FlowDetailScreen` (the fields the navigation and copy commands
touch). -/
structure DetailState where
  flow : Flow
  position : Nat
  total : Nat
  statusMessage : Option String
  deriving DecidableEq

/-- Observable effects of one event handler: whether `app.bell()` was called
and what, if anything, was passed to `app.copy_to_clipboard`. -/
structure Effects where
  bell : Bool
  clipboard : Option String
  deriving DecidableEq

/-- No bell, no clipboard write. -/
def noEffects : Effects := ⟨false, none⟩

/-- `FlowListScreen._set_status_message`: store the message, `""` becoming
`None` (`message or None`). -/
def list_set_status (app : AppState) (m : String) : AppState :=
  { app with list := { app.list with
      statusMessage := if m == "" then none else some m } }

/-- `FlowDetailScreen._set_status_message`, also reached with `None` from
`_navigate_flow`. -/
def detail_set_status (d : DetailState) (m : Option String) : DetailState :=
  { d with statusMessage :=
      match m with
      | none => none
      | some s => if s == "" then none else some s }

/-! ## src/app.py -/

/-- `FlowViewerApp._apply_content_type_filter`: the full store, filtered when
a (truthy) filter is installed. -/
def apply_content_type_filter (allFlows : List Flow) (filter : Option String) :
    List Flow :=
  if pyTruthyStr filter then
    filter_flows_by_content_type allFlows (filter.getD "")
  else allFlows

/-- `FlowListScreen.update_flows`: replace the screen's flows and filter,
install the status message when one was passed (`""` becoming `None`), and
re-populate the table. -/
def update_flows (app : AppState) (flows : List Flow)
    (contentTypeFilter : Option String) (statusMessage : Option String) :
    AppState :=
  let l := app.list
  let l := { l with flows := flows, contentTypeFilter := contentTypeFilter }
  let l :=
    match statusMessage with
    | some m => { l with statusMessage := if m == "" then none else some m }
    | none => l
  let l := { l with table := populate_table l.table flows }
  { app with list := l }

/-- `FlowViewerApp.set_content_type_filter`: normalize the value (stripped;
empty or absent becomes `None`); when unchanged only refresh the list screen
if a status message was supplied; otherwise install it, recompute the
filtered view from the full store, and push both into the list screen. -/
def set_content_type_filter (app : AppState) (value : Option String)
    (statusMessage : Option String) : AppState :=
  let normalized :=
    match value with
    | none => none
    | some v => if pyStrip v == "" then none else some (pyStrip v)
  if normalized == app.contentTypeFilter then
    match statusMessage with
    | some _ => update_flows app app.filteredFlows app.contentTypeFilter statusMessage
    | none => app
  else
    let app := { app with contentTypeFilter := normalized }
    let filtered := apply_content_type_filter app.allFlows normalized
    let app := { app with filteredFlows := filtered }
    update_flows app filtered normalized statusMessage

/-- `FlowViewerApp.get_flows`: a copy of the live filtered view. -/
def get_flows (app : AppState) : List Flow := app.filteredFlows

/-! ## Command line interpreter (src/pages/flow_list.py) -/

/-- `FlowListScreen._get_selected_flow`: `None` on an empty table or a cursor
row outside the flow list, else the flow at the cursor row. -/
def get_selected_flow (l : ListState) : Option Flow :=
  if l.table.rowCount == 0 then none
  else if l.table.cursorRow < l.flows.length then l.flows.get? l.table.cursorRow
  else none

/-- The alias dict of `FlowListScreen._handle_copy_command` (note: no
`"res"` entry, unlike the Detail screen's). -/
def list_cp_aliases : List (String × String) :=
  [("req", "request"), ("request", "request"),
   ("resp", "response"), ("response", "response")]

/-- The alias dict of `FlowDetailScreen._handle_copy_command`. -/
def detail_cp_aliases : List (String × String) :=
  [("req", "request"), ("request", "request"), ("res", "response"),
   ("resp", "response"), ("response", "response")]

/-- Python `dict.get` over an alias list. -/
def aliasLookup (aliases : List (String × String)) (target : String) :
    Option String :=
  (aliases.find? (fun p => p.1 == target)).map (fun p => p.2)

/-- `FlowListScreen._copy_flow_section`: resolve the selected flow and its
request/response; missing pieces give a status message plus a bell and no
clipboard write; otherwise the body text is written to the clipboard and the
status message notes whether it was empty. -/
def list_copy_flow_section (app : AppState) (sectionName : String) :
    AppState × Effects :=
  match get_selected_flow app.list with
  | none => (list_set_status app "No flow selected to copy", ⟨true, none⟩)
  | some flow =>
    if sectionName == "request" then
      match flow.request with
      | none => (list_set_status app "Selected flow has no request to copy", ⟨true, none⟩)
      | some request =>
        let body := get_body_text request.getText request.rawContent
        if body == "" then
          (list_set_status app "Request body copied to clipboard (empty)", ⟨false, some body⟩)
        else
          (list_set_status app "Request body copied to clipboard", ⟨false, some body⟩)
    else
      match flow.response with
      | none => (list_set_status app "Selected flow has no response to copy", ⟨true, none⟩)
      | some response =>
        let body := get_body_text response.getText response.rawContent
        if body == "" then
          (list_set_status app "Response body copied to clipboard (empty)", ⟨false, some body⟩)
        else
          (list_set_status app "Response body copied to clipboard", ⟨false, some body⟩)

/-- `FlowListScreen._handle_copy_command`. -/
def list_handle_copy_command (app : AppState) (remainder : String) :
    AppState × Effects :=
  let target := pyLower (pyStrip remainder)
  if target == "" then
    (list_set_status app "Usage: :cp request|response", ⟨true, none⟩)
  else
    match aliasLookup list_cp_aliases target with
    | none => (list_set_status app ("Unknown copy target: " ++ target), ⟨true, none⟩)
    | some resolved => list_copy_flow_section app resolved

/-- `FlowListScreen._handle_set_command`. -/
def list_handle_set_command (app : AppState) (remainder : String) :
    AppState × Effects :=
  let remainder := pyStrip remainder
  if remainder == "" then
    (list_set_status app "Usage: :set ctype <value>", ⟨true, none⟩)
  else
    let option_parts := pySplitOnce remainder
    let option := option_parts.headD ""
    let value := option_parts.getD 1 ""
    if option ≠ "ctype" then
      (list_set_status app ("Unknown option: " ++ option), ⟨true, none⟩)
    else
      let value := pyStrip value
      let value :=
        if 2 ≤ value.data.length ∧ value.data.headD ' ' = value.data.getLastD ' ' ∧
            (value.data.headD ' ' = '"' ∨ value.data.headD ' ' = '\'') then
          pyStrip ⟨(value.data.drop 1).dropLast⟩
        else value
      if value == "" then
        (set_content_type_filter app none (some "Content-Type filter cleared"), noEffects)
      else
        (set_content_type_filter app (some value)
          (some ("Content-Type filter set to " ++ value)), noEffects)

/-- Strip one leading `":"` then left whitespace, as `_handle_command` does
after the initial `strip()`. -/
def stripColon (command : String) : String :=
  if command.data.headD ' ' = ':' then pyLstrip ⟨command.data.drop 1⟩ else command

/-- `FlowListScreen._handle_command`: strip, drop the colon, split off the
command name, and dispatch to `set` / `cp`; anything else sets the status to
`"Unknown command: "` plus the stripped original line and rings the bell. -/
def list_handle_command (app : AppState) (raw_command : String) :
    AppState × Effects :=
  let command := pyStrip raw_command
  if command == "" then (list_set_status app "No command entered", noEffects)
  else
    let command := stripColon command
    if command == "" then (list_set_status app "No command entered", noEffects)
    else
      let parts := pySplitOnce command
      let name := parts.headD ""
      let remainder := parts.getD 1 ""
      if name = "set" then list_handle_set_command app remainder
      else if name = "cp" then list_handle_copy_command app remainder
      else
        (list_set_status app ("Unknown command: " ++ pyStrip raw_command), ⟨true, none⟩)

/-! ## Command line interpreter (src/pages/flow_detail.py) -/

/-- `FlowDetailScreen._copy_flow_section` (operates on the screen's own flow,
no selection step). -/
def detail_copy_flow_section (d : DetailState) (sectionName : String) :
    DetailState × Effects :=
  if sectionName == "request" then
    match d.flow.request with
    | none => (detail_set_status d (some "Selected flow has no request to copy"), ⟨true, none⟩)
    | some request =>
      let body := get_body_text request.getText request.rawContent
      if body == "" then
        (detail_set_status d (some "Request body copied to clipboard (empty)"), ⟨false, some body⟩)
      else
        (detail_set_status d (some "Request body copied to clipboard"), ⟨false, some body⟩)
  else
    match d.flow.response with
    | none => (detail_set_status d (some "Selected flow has no response to copy"), ⟨true, none⟩)
    | some response =>
      let body := get_body_text response.getText response.rawContent
      if body == "" then
        (detail_set_status d (some "Response body copied to clipboard (empty)"), ⟨false, some body⟩)
      else
        (detail_set_status d (some "Response body copied to clipboard"), ⟨false, some body⟩)

/-- `FlowDetailScreen._handle_copy_command` (its alias dict includes `"res"`). -/
def detail_handle_copy_command (d : DetailState) (remainder : String) :
    DetailState × Effects :=
  let target := pyLower (pyStrip remainder)
  if target == "" then
    (detail_set_status d (some "Usage: :cp request|response"), ⟨true, none⟩)
  else
    match aliasLookup detail_cp_aliases target with
    | none => (detail_set_status d (some ("Unknown copy target: " ++ target)), ⟨true, none⟩)
    | some resolved => detail_copy_flow_section d resolved

/-- `FlowDetailScreen._handle_command`: like the List screen's but the only
recognized command name is `cp`. -/
def detail_handle_command (d : DetailState) (raw_command : String) :
    DetailState × Effects :=
  let command := pyStrip raw_command
  if command == "" then (detail_set_status d (some "No command entered"), noEffects)
  else
    let command := stripColon command
    if command == "" then (detail_set_status d (some "No command entered"), noEffects)
    else
      let parts := pySplitOnce command
      let name := parts.headD ""
      let remainder := parts.getD 1 ""
      if name = "cp" then detail_handle_copy_command d remainder
      else
        (detail_set_status d (some ("Unknown command: " ++ pyStrip raw_command)), ⟨true, none⟩)

/-! ## Detail flow navigation (src/pages/flow_detail.py and src/app.py) -/

/-- The methods `class FlowListScreen` defines in src/pages/flow_list.py.
Noteworthy: there is no `focus_flow`, although `FlowViewerApp.focus_flow_in_list`
calls `self._flow_list_screen.focus_flow(index)`. -/
def flowListScreenMethodNames : List String :=
  ["__init__", "compose", "on_mount", "action_move_down", "action_move_up",
   "action_half_page_down", "action_half_page_up", "action_jump_top",
   "action_jump_bottom", "on_data_table_row_selected", "on_input_submitted",
   "on_input_blurred", "action_jump_screen_top", "action_jump_screen_bottom",
   "action_open_command", "action_cancel_command", "_move_cursor", "_page_move",
   "_visible_bounds", "_estimate_visible_rows", "_scroll_table_to_row",
   "update_flows", "_populate_table", "_update_status_bar",
   "_show_command_prompt", "_hide_command_prompt", "_command_prompt_visible",
   "_handle_command", "_set_status_message", "_copy_flow_section",
   "_get_selected_flow", "_get_body_text", "_handle_set_command",
   "_handle_copy_command"]

/-- `FlowViewerApp.focus_flow_in_list` (the list screen is mounted, so the
`None` guard does not fire): it calls `focus_flow` on the list screen, a
method `FlowListScreen` does not define, so Python raises `AttributeError`.
The `ok` branch is unreachable because `focus_flow` is absent from
`flowListScreenMethodNames`. -/
def focus_flow_in_list (app : AppState) (_index : Nat) : Except String AppState :=
  if flowListScreenMethodNames.contains "focus_flow" then
    Except.ok app
  else
    Except.error "AttributeError: FlowListScreen object has no attribute focus_flow"

/-- `FlowDetailScreen._navigate_flow(offset)`: re-read the application's live
filtered flow list; bell and stop when it is empty or the target index is out
of range; otherwise rewrite the screen's flow/position/total in place, clear
the status message, and ask the app to focus the list cursor — which raises,
propagated here as `Except.error`. -/
def navigate_flow (app : AppState) (d : DetailState) (offset : Int) :
    Except String (AppState × DetailState × Effects) :=
  let flows := get_flows app
  if flows.isEmpty then Except.ok (app, d, ⟨true, none⟩)
  else
    let new_index : Int := (d.position : Int) + offset
    if new_index < 0 ∨ (flows.length : Int) ≤ new_index then
      Except.ok (app, d, ⟨true, none⟩)
    else
      let d := { d with
        flow := (flows.get? new_index.toNat).getD ⟨none, none⟩,
        position := new_index.toNat,
        total := flows.length }
      let d := detail_set_status d none
      match focus_flow_in_list app new_index.toNat with
      | Except.error e => Except.error e
      | Except.ok app => Except.ok (app, d, noEffects)

/-! ## Theorems -/

/-- Spec-side predicate, stated from the specification's words: a flow passes
the content-type filter iff it has a request whose `Content-Type` header
value, compared case-insensitively, contains the filter text as a substring.
Compared against `filter_flows_by_content_type` (the source's definition). -/
def requestContentTypeMatches (content_type : String) (flow : Flow) : Bool :=
  match flow.request with
  | none => false
  | some request =>
    match headersGet request.headers "content-type" with
    | none => false
    | some header_value =>
        occursIn (pyLower content_type).data (pyLower header_value).data

/-- A non-empty string has a non-empty character list. -/
theorem data_ne_nil_of_ne_empty {s : String} (h : s ≠ "") : s.data ≠ [] := by
  intro hd
  apply h
  cases s with
  | mk l =>
    cases hd
    rfl

/-- Claim C2: with empty filter text `filter_flows_by_content_type` is the
identity; with non-empty text it is exactly the ordered subsequence of flows
that have a request whose Content-Type header value contains the text
case-insensitively (flows with no request, no Content-Type header, or an
empty header value are excluded — for non-empty text the code's extra
emptiness test on the header value is subsumed by the substring test). -/
theorem claim_C2_filter_contract (flows : List Flow) (ct : String) :
    filter_flows_by_content_type flows "" = flows ∧
    (ct ≠ "" →
      filter_flows_by_content_type flows ct =
        flows.filter (requestContentTypeMatches ct)) := by
  refine ⟨by simp [filter_flows_by_content_type], fun hct => ?_⟩
  have hne : (ct == "") = false := beq_eq_false_iff_ne.mpr hct
  unfold filter_flows_by_content_type
  simp only [hne, Bool.false_eq_true, if_false]
  refine List.filter_congr fun flow _ => ?_
  cases hfr : flow.request with
  | none => simp [requestContentTypeMatches, hfr]
  | some request =>
    cases hv : headersGet request.headers "content-type" with
    | none => simp [requestContentTypeMatches, hfr, hv]
    | some header_value =>
      by_cases h0 : header_value = ""
      · subst h0
        have hd : ct.data ≠ [] := data_ne_nil_of_ne_empty hct
        simp [requestContentTypeMatches, hfr, hv, pyLower, occursIn,
          List.isEmpty_iff, hd]
      · have hb : (header_value == "") = false := beq_eq_false_iff_ne.mpr h0
        simp [requestContentTypeMatches, hfr, hv, hb]

/-- Witness for claim C2: a concrete three-flow capture filtered by "json". -/
theorem claim_C2_filter_contract_witness :
    filter_flows_by_content_type
        [⟨some ⟨"GET", "h", "/a", "https", "HTTP/1.1",
            [("Content-Type", "application/JSON")], none, none⟩, none⟩,
         ⟨none, some ⟨200, "OK", "HTTP/1.1", [], none, none⟩⟩,
         ⟨some ⟨"GET", "h", "/b", "https", "HTTP/1.1",
            [("Content-Type", "text/html")], none, none⟩, none⟩]
        "json" =
      List.filter (requestContentTypeMatches "json")
        [⟨some ⟨"GET", "h", "/a", "https", "HTTP/1.1",
            [("Content-Type", "application/JSON")], none, none⟩, none⟩,
         ⟨none, some ⟨200, "OK", "HTTP/1.1", [], none, none⟩⟩,
         ⟨some ⟨"GET", "h", "/b", "https", "HTTP/1.1",
            [("Content-Type", "text/html")], none, none⟩, none⟩] :=
  (claim_C2_filter_contract _ "json").2 (by decide)

/-- Claim C7: filtering is idempotent for every filter text. -/
theorem claim_C7_filter_idempotent (flows : List Flow) (t : String) :
    filter_flows_by_content_type (filter_flows_by_content_type flows t) t =
      filter_flows_by_content_type flows t := by
  by_cases h : (t == "") = true
  · simp [filter_flows_by_content_type, h]
  · have hne : (t == "") = false := by
      cases hb : (t == "") with
      | false => rfl
      | true => exact absurd hb h
    unfold filter_flows_by_content_type
    simp only [hne, Bool.false_eq_true, if_false]
    rw [List.filter_filter]
    exact List.filter_congr fun flow _ => by rw [Bool.and_self]

/-- Claim C4 counterexample: on an empty table (`rowCount = 0`) a cursor move
request is a no-op but the code does not ring the bell, contradicting the
claim that "no movement possible" is signalled to the caller via the bell;
and when the offset would move past the clamp (row 1, offset +100, 5 rows)
the cursor is not left in place but moved to the clamp (row 4). -/
theorem claim_C4_counterexample :
    ¬ ((move_cursor ⟨0, 0, 0⟩ 1).2 = true) ∧
    ¬ ((move_cursor ⟨1, 0, 5⟩ 100).1.cursorRow = 1) := by decide

/-- Claim C4 as amended: `_move_cursor` clamps `cursorRow + offset` into
`[0, rowCount-1]` (no-op when `rowCount = 0` or the clamped target equals the
current row), and never rings the bell — the clamp is silent. -/
theorem claim_C4_move_cursor_clamps_silently (s : TableState) (o : Int) :
    (move_cursor s o).2 = false ∧
    (s.rowCount = 0 → (move_cursor s o).1 = s) ∧
    (0 < s.rowCount →
      (move_cursor s o).1.rowCount = s.rowCount ∧
      (move_cursor s o).1.cursorColumn = s.cursorColumn ∧
      (move_cursor s o).1.cursorRow < s.rowCount ∧
      ((s.cursorRow : Int) + o < 0 → (move_cursor s o).1.cursorRow = 0) ∧
      (0 ≤ (s.cursorRow : Int) + o → (s.cursorRow : Int) + o ≤ (s.rowCount : Int) - 1 →
        ((move_cursor s o).1.cursorRow : Int) = (s.cursorRow : Int) + o) ∧
      ((s.rowCount : Int) - 1 < (s.cursorRow : Int) + o →
        (move_cursor s o).1.cursorRow = s.rowCount - 1)) := by
  by_cases h : s.rowCount = 0
  · refine ⟨by simp [move_cursor, h], fun _ => by simp [move_cursor, h],
      fun hpos => absurd h (by omega)⟩
  · have hb : (s.rowCount == 0) = false := by simp [h]
    refine ⟨by simp [move_cursor, hb], fun h0 => absurd h0 h, fun hpos => ?_⟩
    refine ⟨by simp [move_cursor, hb], by simp [move_cursor, hb], ?_, ?_, ?_, ?_⟩ <;>
      · simp only [move_cursor, hb, Bool.false_eq_true, if_false]
        omega

/-- Witness for claim C4 (amended): a 5-row table, cursor on row 1, asked to
move down 100 rows — silent, clamped to the last row. -/
theorem claim_C4_move_cursor_clamps_silently_witness :
    (move_cursor ⟨1, 0, 5⟩ 100).2 = false ∧
    (move_cursor ⟨1, 0, 5⟩ 100).1.cursorRow = 4 :=
  ⟨(claim_C4_move_cursor_clamps_silently ⟨1, 0, 5⟩ 100).1,
   ((claim_C4_move_cursor_clamps_silently ⟨1, 0, 5⟩ 100).2.2 (by decide)).2.2.2.2.2
     (by decide)⟩

/-- One cursor operation of the List screen: `_move_cursor(offset)` or
`_page_move(fraction)`. -/
inductive CursorOp where
  | move (offset : Int)
  | page (fraction : Rat)

/-- Run one cursor operation on the table (the state component of the
handler's effect). -/
def run_op (height : Nat) (s : TableState) : CursorOp → TableState
  | CursorOp.move o => (move_cursor s o).1
  | CursorOp.page f => (page_move s height f).1

/-- Run a sequence of cursor operations. -/
def run_ops (height : Nat) (s : TableState) (ops : List CursorOp) : TableState :=
  ops.foldl (run_op height) s

/-- `_move_cursor` leaves the row count unchanged. -/
theorem move_cursor_rowCount (s : TableState) (o : Int) :
    (move_cursor s o).1.rowCount = s.rowCount := by
  unfold move_cursor
  split <;> rfl

/-- On a non-empty table, `_move_cursor` lands inside `[0, rowCount-1]`. -/
theorem move_cursor_lt (s : TableState) (o : Int) (h : 0 < s.rowCount) :
    (move_cursor s o).1.cursorRow < s.rowCount := by
  have hb : (s.rowCount == 0) = false := by simp; omega
  simp only [move_cursor, hb, Bool.false_eq_true, if_false]
  omega

/-- Any single cursor operation preserves the row count. -/
theorem run_op_rowCount (height : Nat) (s : TableState) (op : CursorOp) :
    (run_op height s op).rowCount = s.rowCount := by
  cases op with
  | move o => exact move_cursor_rowCount s o
  | page f =>
    simp only [run_op, page_move]
    split
    · rfl
    · exact move_cursor_rowCount s _

/-- On a non-empty table, any single cursor operation leaves the cursor row
in range. -/
theorem run_op_lt (height : Nat) (s : TableState) (op : CursorOp)
    (h : 0 < s.rowCount) (hc : s.cursorRow < s.rowCount) :
    (run_op height s op).cursorRow < s.rowCount := by
  cases op with
  | move o => exact move_cursor_lt s o h
  | page f =>
    simp only [run_op, page_move]
    split
    · exact hc
    · exact move_cursor_lt s _ h

/-- Claim C6: for a table with `rowCount > 0` and an in-range cursor, after
any finite sequence of `_move_cursor` / `_page_move` calls (arbitrary offsets
and fractions) the invariant `0 ≤ cursorRow < rowCount` still holds (the
lower bound is inherent in `cursorRow : Nat`), and the row count is
untouched. -/
theorem claim_C6_cursor_invariant (height : Nat) (s : TableState)
    (ops : List CursorOp) (h0 : 0 < s.rowCount) (h1 : s.cursorRow < s.rowCount) :
    (run_ops height s ops).rowCount = s.rowCount ∧
    (run_ops height s ops).cursorRow < (run_ops height s ops).rowCount := by
  induction ops generalizing s with
  | nil => exact ⟨rfl, h1⟩
  | cons op rest ih =>
    have hrc := run_op_rowCount height s op
    have step := ih (run_op height s op) (hrc ▸ h0)
      (hrc ▸ run_op_lt height s op h0 h1)
    simp only [run_ops, List.foldl_cons] at step ⊢
    exact ⟨step.1.trans hrc, step.2⟩

/-- Witness for claim C6: a 3-row table walked with a move by 1, a half-page
down, a half-page up and a move by -7 keeps its cursor in range. -/
theorem claim_C6_cursor_invariant_witness :
    (run_ops 10 ⟨0, 0, 3⟩
        [CursorOp.move 1, CursorOp.page (1/2), CursorOp.page (-(1/2)),
         CursorOp.move (-7)]).cursorRow <
      (run_ops 10 ⟨0, 0, 3⟩
        [CursorOp.move 1, CursorOp.page (1/2), CursorOp.page (-(1/2)),
         CursorOp.move (-7)]).rowCount :=
  (claim_C6_cursor_invariant 10 ⟨0, 0, 3⟩ _ (by decide) (by decide)).2

/-- Claim C8: re-populating the table (cursor column within the five flow
columns) preserves the cursor exactly when the previous row is still in range
of the new row count, and otherwise clamps the row to `newRowCount - 1`. -/
theorem claim_C8_populate_preserves_cursor (t : TableState) (flows : List Flow)
    (hOld : 0 < t.rowCount) (hCol : t.cursorColumn ≤ 4) (hNew : 0 < flows.length) :
    (populate_table t flows).rowCount = flows.length ∧
    (t.cursorRow < flows.length →
      (populate_table t flows).cursorRow = t.cursorRow ∧
      (populate_table t flows).cursorColumn = t.cursorColumn) ∧
    (flows.length ≤ t.cursorRow →
      (populate_table t flows).cursorRow = flows.length - 1) := by
  have h0 : t.rowCount ≠ 0 := by omega
  have h1 : flows.length ≠ 0 := by omega
  refine ⟨?_, fun hlt => ⟨?_, ?_⟩, fun hge => ?_⟩ <;>
    · simp [populate_table, flowTableColumns, h0, h1]
      try omega

/-- Witness for claim C8: a table showing 6 rows with the cursor at (3, 0)
repopulated down to 2 rows clamps the cursor row to 1; repopulated to 5 rows
it stays at 3. -/
theorem claim_C8_populate_preserves_cursor_witness :
    (∃ flows : List Flow, flows.length = 2 ∧
      (populate_table ⟨3, 0, 6⟩ flows).cursorRow = 2 - 1) := by
  refine ⟨[⟨none, none⟩, ⟨none, none⟩], rfl, ?_⟩
  exact (claim_C8_populate_preserves_cursor ⟨3, 0, 6⟩ _ (by decide) (by decide)
    (by decide)).2.2 (by decide)

/-- A string starting with a non-empty string is non-empty. -/
theorem append_ne_empty_left {a : String} (b : String) (h : a ≠ "") :
    a ++ b ≠ "" := by
  intro he
  apply h
  cases a with
  | mk l =>
    cases b with
    | mk m =>
      have hd : l ++ m = ([] : List Char) := congrArg String.data he
      have hl : l = [] := by
        cases l with
        | nil => rfl
        | cons c cs => simp at hd
      subst hl
      rfl

/-- Claim C5: a submitted command line whose first word is neither `set` nor
`cp` (for the List screen; the Detail screen recognizes only `cp`, so the
same hypotheses cover it) sets the status message to `"Unknown command: "`
followed by the stripped original line — leading colon included — rings the
bell, writes nothing to the clipboard, and leaves every other part of the
state (flows, filter, table cursor and contents) unchanged. -/
theorem claim_C5_unknown_command (app : AppState) (d : DetailState) (raw : String)
    (h1 : pyStrip raw ≠ "")
    (h2 : stripColon (pyStrip raw) ≠ "")
    (h3 : (pySplitOnce (stripColon (pyStrip raw))).headD "" ≠ "set")
    (h4 : (pySplitOnce (stripColon (pyStrip raw))).headD "" ≠ "cp") :
    list_handle_command app raw =
      ({ app with list := { app.list with
          statusMessage := some ("Unknown command: " ++ pyStrip raw) } },
       ⟨true, none⟩) ∧
    detail_handle_command d raw =
      ({ d with statusMessage := some ("Unknown command: " ++ pyStrip raw) },
       ⟨true, none⟩) := by
  have hb1 : (pyStrip raw == "") = false := beq_eq_false_iff_ne.mpr h1
  have hb2 : (stripColon (pyStrip raw) == "") = false := beq_eq_false_iff_ne.mpr h2
  have hmsg : (("Unknown command: " ++ pyStrip raw) == "") = false :=
    beq_eq_false_iff_ne.mpr (append_ne_empty_left _ (by decide))
  constructor
  · simp only [list_handle_command, hb1, Bool.false_eq_true, if_false, hb2,
      h3, h4, if_neg, list_set_status, hmsg]
  · simp only [detail_handle_command, hb1, Bool.false_eq_true, if_false, hb2,
      h4, if_neg, detail_set_status, hmsg]

/-- A one-flow capture used by several witnesses: a GET with an HTML request
body and a 200 response. -/
def demoFlow : Flow :=
  ⟨some ⟨"GET", "example.com", "/a", "https", "HTTP/1.1",
      [("content-type", "text/html")], some "hello", none⟩,
   some ⟨200, "OK", "HTTP/1.1", [("content-type", "text/html")],
      some "world", none⟩⟩

/-- A mounted List screen showing `demoFlow`. -/
def demoList : ListState := ⟨[demoFlow], none, none, ⟨0, 0, 1⟩⟩

/-- The application with one loaded flow and no filter. -/
def demoApp : AppState := ⟨[demoFlow], [demoFlow], none, demoList⟩

/-- A Detail screen opened on `demoFlow`. -/
def demoDetail : DetailState := ⟨demoFlow, 0, 1, none⟩

/-- Witness for claim C5: submitting `":bogus"` on both screens. -/
theorem claim_C5_unknown_command_witness :
    list_handle_command demoApp ":bogus" =
      ({ demoApp with list := { demoApp.list with
          statusMessage := some "Unknown command: :bogus" } },
       ⟨true, none⟩) ∧
    detail_handle_command demoDetail ":bogus" =
      ({ demoDetail with statusMessage := some "Unknown command: :bogus" },
       ⟨true, none⟩) :=
  claim_C5_unknown_command demoApp demoDetail ":bogus"
    (by decide) (by decide) (by decide) (by decide)

/-- Claim C3 counterexample: on the List screen (selected flow with a
response present) `:cp res` does not behave like `:cp response` — the List
screen's alias dict has no `"res"` entry, so it answers
"Unknown copy target: res" with a bell instead of copying. -/
theorem claim_C3_counterexample :
    list_handle_command demoApp ":cp res" ≠
      list_handle_command demoApp ":cp response" := by decide

/-- Claim C3 as amended: `:cp res` is a copy-response alias on the Detail
screen only; on the List screen the recognized aliases are `req` / `request`
/ `resp` / `response`, and `:cp res` yields the status message
"Unknown copy target: res" plus a bell, with no clipboard write. -/
theorem claim_C3_cp_res_detail_only (app : AppState) (d : DetailState) :
    detail_handle_command d ":cp res" = detail_handle_command d ":cp response" ∧
    list_handle_command app ":cp res" =
      (list_set_status app "Unknown copy target: res", ⟨true, none⟩) := by
  exact ⟨rfl, rfl⟩

/-- Claim C9: `:cp request` on a flow with no request — whether it is the
List screen's selected flow or the Detail screen's flow — produces only a
status message and a bell, with no clipboard write; symmetrically for
`:cp response` on a flow with no response. -/
theorem claim_C9_copy_missing_section (app : AppState) (d : DetailState)
    (flow : Flow) :
    (get_selected_flow app.list = some flow → flow.request = none →
      list_handle_command app ":cp request" =
        (list_set_status app "Selected flow has no request to copy", ⟨true, none⟩)) ∧
    (get_selected_flow app.list = some flow → flow.response = none →
      list_handle_command app ":cp response" =
        (list_set_status app "Selected flow has no response to copy", ⟨true, none⟩)) ∧
    (d.flow.request = none →
      detail_handle_command d ":cp request" =
        (detail_set_status d (some "Selected flow has no request to copy"), ⟨true, none⟩)) ∧
    (d.flow.response = none →
      detail_handle_command d ":cp response" =
        (detail_set_status d (some "Selected flow has no response to copy"), ⟨true, none⟩)) := by
  refine ⟨fun hsel hreq => ?_, fun hsel hresp => ?_, fun hreq => ?_, fun hresp => ?_⟩
  · have hred : list_handle_command app ":cp request" =
        list_copy_flow_section app "request" := rfl
    rw [hred]
    simp [list_copy_flow_section, hsel, hreq]
  · have hred : list_handle_command app ":cp response" =
        list_copy_flow_section app "response" := rfl
    rw [hred]
    simp [list_copy_flow_section, hsel, hresp]
  · have hred : detail_handle_command d ":cp request" =
        detail_copy_flow_section d "request" := rfl
    rw [hred]
    simp [detail_copy_flow_section, hreq]
  · have hred : detail_handle_command d ":cp response" =
        detail_copy_flow_section d "response" := rfl
    rw [hred]
    simp [detail_copy_flow_section, hresp]

/-- A degenerate flow with neither request nor response. -/
def demoEmptyFlow : Flow := ⟨none, none⟩

/-- The application showing only `demoEmptyFlow`. -/
def demoAppNoData : AppState :=
  ⟨[demoEmptyFlow], [demoEmptyFlow], none, ⟨[demoEmptyFlow], none, none, ⟨0, 0, 1⟩⟩⟩

/-- A Detail screen opened on `demoEmptyFlow`. -/
def demoDetailNoData : DetailState := ⟨demoEmptyFlow, 0, 1, none⟩

/-- Witness for claim C9: copying request and response of a flow that has
neither, on both screens. -/
theorem claim_C9_copy_missing_section_witness :
    list_handle_command demoAppNoData ":cp request" =
      (list_set_status demoAppNoData "Selected flow has no request to copy", ⟨true, none⟩) ∧
    list_handle_command demoAppNoData ":cp response" =
      (list_set_status demoAppNoData "Selected flow has no response to copy", ⟨true, none⟩) ∧
    detail_handle_command demoDetailNoData ":cp request" =
      (detail_set_status demoDetailNoData (some "Selected flow has no request to copy"), ⟨true, none⟩) ∧
    detail_handle_command demoDetailNoData ":cp response" =
      (detail_set_status demoDetailNoData (some "Selected flow has no response to copy"), ⟨true, none⟩) :=
  ⟨(claim_C9_copy_missing_section demoAppNoData demoDetailNoData demoEmptyFlow).1
      rfl rfl,
   (claim_C9_copy_missing_section demoAppNoData demoDetailNoData demoEmptyFlow).2.1
      rfl rfl,
   (claim_C9_copy_missing_section demoAppNoData demoDetailNoData demoEmptyFlow).2.2.1
      rfl,
   (claim_C9_copy_missing_section demoAppNoData demoDetailNoData demoEmptyFlow).2.2.2
      rfl⟩

/-- Claim C10: when the selected section exists but both its decoded text
and its raw content are empty/absent (Python-falsy), `:cp` still succeeds —
it writes the empty string to the clipboard, reports
"… copied to clipboard (empty)", and rings no bell; on both screens. -/
theorem claim_C10_copy_empty_body (app : AppState) (d : DetailState)
    (flow : Flow) (req : RequestRecord) (resp : ResponseRecord) :
    (get_selected_flow app.list = some flow → flow.request = some req →
      pyTruthyStr req.getText = false → pyTruthyBytes req.rawContent = false →
      list_handle_command app ":cp request" =
        (list_set_status app "Request body copied to clipboard (empty)", ⟨false, some ""⟩)) ∧
    (get_selected_flow app.list = some flow → flow.response = some resp →
      pyTruthyStr resp.getText = false → pyTruthyBytes resp.rawContent = false →
      list_handle_command app ":cp response" =
        (list_set_status app "Response body copied to clipboard (empty)", ⟨false, some ""⟩)) ∧
    (d.flow.request = some req →
      pyTruthyStr req.getText = false → pyTruthyBytes req.rawContent = false →
      detail_handle_command d ":cp request" =
        (detail_set_status d (some "Request body copied to clipboard (empty)"), ⟨false, some ""⟩)) ∧
    (d.flow.response = some resp →
      pyTruthyStr resp.getText = false → pyTruthyBytes resp.rawContent = false →
      detail_handle_command d ":cp response" =
        (detail_set_status d (some "Response body copied to clipboard (empty)"), ⟨false, some ""⟩)) := by
  refine ⟨fun hsel hreq ht hr => ?_, fun hsel hresp ht hr => ?_,
    fun hreq ht hr => ?_, fun hresp ht hr => ?_⟩
  · have hred : list_handle_command app ":cp request" =
        list_copy_flow_section app "request" := rfl
    rw [hred]
    simp [list_copy_flow_section, hsel, hreq, get_body_text, ht, hr]
  · have hred : list_handle_command app ":cp response" =
        list_copy_flow_section app "response" := rfl
    rw [hred]
    simp [list_copy_flow_section, hsel, hresp, get_body_text, ht, hr]
  · have hred : detail_handle_command d ":cp request" =
        detail_copy_flow_section d "request" := rfl
    rw [hred]
    simp [detail_copy_flow_section, hreq, get_body_text, ht, hr]
  · have hred : detail_handle_command d ":cp response" =
        detail_copy_flow_section d "response" := rfl
    rw [hred]
    simp [detail_copy_flow_section, hresp, get_body_text, ht, hr]

/-- A flow whose request has neither decoded text nor raw bytes, and whose
response has empty decoded text and empty raw bytes: every body source is
Python-falsy. -/
def demoEmptyBodyFlow : Flow :=
  ⟨some ⟨"POST", "example.com", "/p", "https", "HTTP/1.1", [], none, none⟩,
   some ⟨204, "No Content", "HTTP/1.1", [], some "", some []⟩⟩

/-- The application showing only `demoEmptyBodyFlow`. -/
def demoAppEmptyBody : AppState :=
  ⟨[demoEmptyBodyFlow], [demoEmptyBodyFlow], none,
   ⟨[demoEmptyBodyFlow], none, none, ⟨0, 0, 1⟩⟩⟩

/-- A Detail screen opened on `demoEmptyBodyFlow`. -/
def demoDetailEmptyBody : DetailState := ⟨demoEmptyBodyFlow, 0, 1, none⟩

/-- Witness for claim C10: the four copy configurations on the empty-body
flow. -/
theorem claim_C10_copy_empty_body_witness :
    list_handle_command demoAppEmptyBody ":cp request" =
      (list_set_status demoAppEmptyBody "Request body copied to clipboard (empty)", ⟨false, some ""⟩) ∧
    list_handle_command demoAppEmptyBody ":cp response" =
      (list_set_status demoAppEmptyBody "Response body copied to clipboard (empty)", ⟨false, some ""⟩) ∧
    detail_handle_command demoDetailEmptyBody ":cp request" =
      (detail_set_status demoDetailEmptyBody (some "Request body copied to clipboard (empty)"), ⟨false, some ""⟩) ∧
    detail_handle_command demoDetailEmptyBody ":cp response" =
      (detail_set_status demoDetailEmptyBody (some "Response body copied to clipboard (empty)"), ⟨false, some ""⟩) := by
  have t := claim_C10_copy_empty_body demoAppEmptyBody demoDetailEmptyBody
    demoEmptyBodyFlow
    ⟨"POST", "example.com", "/p", "https", "HTTP/1.1", [], none, none⟩
    ⟨204, "No Content", "HTTP/1.1", [], some "", some []⟩
  exact ⟨t.1 rfl rfl rfl rfl, t.2.1 rfl rfl rfl rfl,
    t.2.2.1 rfl rfl rfl, t.2.2.2 rfl rfl rfl⟩

/-- A second demo flow so navigation has somewhere to go. -/
def demoFlowB : Flow :=
  ⟨some ⟨"POST", "example.com", "/b", "https", "HTTP/1.1",
      [("content-type", "application/json")], some "{}", none⟩,
   some ⟨404, "Not Found", "HTTP/1.1", [], none, none⟩⟩

/-- The application with two flows loaded (no filter). -/
def demoAppTwo : AppState :=
  ⟨[demoFlow, demoFlowB], [demoFlow, demoFlowB], none,
   ⟨[demoFlow, demoFlowB], none, none, ⟨0, 0, 2⟩⟩⟩

/-- A Detail screen opened on the first of the two flows. -/
def demoDetailTwo : DetailState := ⟨demoFlow, 0, 2, none⟩

/-- Claim C1, evaluated at the failing input: with two flows in the live
filtered view and Detail open at position 0, pressing next-flow (offset +1)
is in range, so `_navigate_flow` rewrites the Detail state and then calls
`FlowViewerApp.focus_flow_in_list`, which invokes the non-existent
`FlowListScreen.focus_flow` — an `AttributeError`, not a List-cursor move. -/
theorem claim_C1_navigate_raises :
    navigate_flow demoAppTwo demoDetailTwo 1 =
      Except.error "AttributeError: FlowListScreen object has no attribute focus_flow" := by
  rfl

end MitmViewer
